import Mathlib

/-!
Verification development for the junction railway-control frontend.

Shallow embedding of the React components' pure state logic:
`ScheduleOptimizer` (trains/tracks configuration and the optimize request),
`AIDecisions` (decision lifecycle and the resolution request),
`MLPredictions` (prediction request payload and defaults),
`Dashboard` and `Analytics` (derived statistics).

TypeScript `number` values are modelled as `Int` where the code parses with
`parseInt` (priorities, capacities, delays in the optimizer form) and as `Rat`
where fractional values occur (scores, confidences, predicted delays).
-/

namespace Junction

/-! ## ScheduleOptimizer data model (src Train / Track interfaces) -/

/-- interface Train: id, route (ordered element ids), priority, current_delay. -/
structure Train where
  id : String
  route : List String
  priority : Int
  current_delay : Int
  deriving Repr, DecidableEq

/-- interface Track: id, capacity, type. -/
structure Track where
  id : String
  capacity : Int
  type : String
  deriving Repr, DecidableEq

/-- State held by the ScheduleOptimizer component: the trains and tracks lists. -/
structure OptState where
  trains : List Train
  tracks : List Track
  deriving Repr, DecidableEq

/-- Initial `trains` useState value of ScheduleOptimizer. -/
def initialTrains : List Train :=
  [ { id := "EXP-101", route := ["A", "B", "C"], priority := 2, current_delay := 5 },
    { id := "LOC-78",  route := ["A", "D", "E"], priority := 1, current_delay := 0 },
    { id := "FRT-203", route := ["B", "C", "F"], priority := 0, current_delay := 10 } ]

/-- Initial `tracks` useState value of ScheduleOptimizer. -/
def initialTracks : List Track :=
  [ { id := "A", capacity := 1, type := "junction" },
    { id := "B", capacity := 2, type := "track" },
    { id := "C", capacity := 1, type := "junction" },
    { id := "D", capacity := 1, type := "track" },
    { id := "E", capacity := 1, type := "platform" },
    { id := "F", capacity := 1, type := "platform" } ]

/-- The component's initial state. -/
def initialOptState : OptState := { trains := initialTrains, tracks := initialTracks }

/-- The JS array update `arr[index] = {...arr[index], [field]: value}` used by
updateTrain / updateTrack: replace the element at `index`, leave the rest. -/
def listUpdate (f : α → α) : Nat → List α → List α
  | _, [] => []
  | 0, x :: xs => f x :: xs
  | n + 1, x :: xs => x :: listUpdate f n xs

/-- addTrain: appends a train with a generated id, default route, priority 1, delay 0. -/
def addTrain (trains : List Train) : List Train :=
  trains ++ [ { id := "TRAIN-" ++ toString (trains.length + 1),
                route := ["A", "B"], priority := 1, current_delay := 0 } ]

/-- addTrack: appends a track with the next letter id, capacity 1, type track. -/
def addTrack (tracks : List Track) : List Track :=
  tracks ++ [ { id := String.mk [Char.ofNat (65 + tracks.length)],
                capacity := 1, type := "track" } ]

/-- The option values offered by the priority select
(Low/Freight 0, Medium/Local 1, High/Express 2). -/
def priorityOptions : List Int := [0, 1, 2]

/-- The option values offered by the track type select. -/
def trackTypeOptions : List String := ["track", "junction", "platform"]

/-- UI events of the ScheduleOptimizer form. Numeric payloads carry the result
of the `parseInt` applied in the corresponding onChange handler. -/
inductive OptEvent where
  | addTrainEv : OptEvent
  | addTrackEv : OptEvent
  | updateTrainRoute (index : Nat) (raw : String) : OptEvent
  | updateTrainDelay (index : Nat) (value : Int) : OptEvent
  | updateTrainPriority (index : Nat) (value : Int) : OptEvent
  | updateTrackCapacity (index : Nat) (value : Int) : OptEvent
  | updateTrackType (index : Nat) (value : String) : OptEvent
  deriving Repr, DecidableEq

/-- Events as the rendered controls can emit them: a `<select>` only produces
one of its `<option>` values; the number inputs produce whatever integer the
user types (the `min` attribute does not restrict typed input). -/
def ValidOptEvent : OptEvent → Prop
  | .updateTrainPriority _ v => v ∈ priorityOptions
  | .updateTrackType _ t => t ∈ trackTypeOptions
  | _ => True

instance : DecidablePred ValidOptEvent := fun e => by
  cases e <;> simp only [ValidOptEvent] <;> infer_instance

/-- State transition of the ScheduleOptimizer component for each UI event,
mirroring addTrain / addTrack / updateTrain / updateTrack. -/
def applyOptEvent (e : OptEvent) (s : OptState) : OptState :=
  match e with
  | .addTrainEv => { s with trains := addTrain s.trains }
  | .addTrackEv => { s with tracks := addTrack s.tracks }
  | .updateTrainRoute i raw =>
      { s with trains := listUpdate (fun t => { t with route := raw.splitOn ", " }) i s.trains }
  | .updateTrainDelay i v =>
      { s with trains := listUpdate (fun t => { t with current_delay := v }) i s.trains }
  | .updateTrainPriority i v =>
      { s with trains := listUpdate (fun t => { t with priority := v }) i s.trains }
  | .updateTrackCapacity i v =>
      { s with tracks := listUpdate (fun t => { t with capacity := v }) i s.tracks }
  | .updateTrackType i v =>
      { s with tracks := listUpdate (fun t => { t with type := v }) i s.tracks }

/-- States the component can reach from its initial state through events
satisfying `P`. -/
inductive ReachableFrom (P : OptEvent → Prop) : OptState → Prop
  | init : ReachableFrom P initialOptState
  | step {s : OptState} {e : OptEvent} :
      ReachableFrom P s → P e → ReachableFrom P (applyOptEvent e s)

/-- States reachable through events the rendered controls can emit. -/
def ReachableOptState : OptState → Prop := ReachableFrom ValidOptEvent

/-- Capacity edits whose parsed value is at least 1 (what the input's
`min` attribute advertises); all other events are unrestricted. -/
def CapAtLeastOne : OptEvent → Prop
  | .updateTrackCapacity _ v => 1 ≤ v
  | _ => True

/-- The entry stored per train by handleOptimize's `current_schedule` reduce:
`{ scheduled_time: 0 }`. -/
structure ScheduleEntry where
  scheduled_time : Int
  deriving Repr, DecidableEq

/-- The `current_schedule` object built by handleOptimize: one entry per train,
keyed by the train id, each `{ scheduled_time: 0 }`. -/
def currentSchedule (trains : List Train) : List (String × ScheduleEntry) :=
  trains.map (fun t => (t.id, { scheduled_time := 0 }))

/-- The JSON body posted by handleOptimize to `/optimize`:
`{ trains, tracks, current_schedule }` taken from the component state. -/
structure OptimizeRequestBody where
  trains : List Train
  tracks : List Track
  current_schedule : List (String × ScheduleEntry)
  deriving Repr, DecidableEq

/-- handleOptimize's request body as a function of the component state. -/
def optimizeRequestBody (s : OptState) : OptimizeRequestBody :=
  { trains := s.trains, tracks := s.tracks, current_schedule := currentSchedule s.trains }

/-- Number of configured trains whose route passes through a given element id. -/
def trainsUsing (el : String) (trains : List Train) : Nat :=
  (trains.filter (fun t => el ∈ t.route)).length

/-- Priority of the configured train with a given id, if present. -/
def priorityOf (tid : String) (trains : List Train) : Option Int :=
  (trains.find? (fun t => t.id = tid)).map Train.priority

/-- Capacity of the configured track with a given id, if present. -/
def capacityOf (tid : String) (tracks : List Track) : Option Int :=
  (tracks.find? (fun t => t.id = tid)).map Track.capacity

/-! ## AIDecisions (src/src/components/AIDecisions.tsx) -/

/-- Decision lifecycle status: 'pending' | 'accepted' | 'rejected'. -/
inductive DStatus where
  | pending | accepted | rejected
  deriving Repr, DecidableEq

/-- interface AIDecision. -/
structure AIDecision where
  id : String
  type : String
  description : String
  impact : String
  confidence : Rat
  status : DStatus
  estimatedTimeSaving : Rat
  deriving Repr, DecidableEq

/-- Operator action passed to handleDecision: 'accept' | 'reject'. -/
inductive DAction where
  | accept | reject
  deriving Repr, DecidableEq

/-- The action's string form, as interpolated into the URL and body. -/
def DAction.str : DAction → String
  | .accept => "accept"
  | .reject => "reject"

/-- The terminal status handleDecision writes for an action:
accepted on accept, rejected on reject. -/
def terminalOf : DAction → DStatus
  | .accept => DStatus.accepted
  | .reject => DStatus.rejected

/-- The JSON body of the POST to `/decisions/{id}/{action}` sent by
handleDecision. -/
structure DecisionResolutionBody where
  action : String
  controller_id : String
  feedback_score : Rat
  context : String
  deriving Repr, DecidableEq

/-- handleDecision's request body: the action, the fixed controller identity,
feedback_score 0.9 on accept and 0.1 on reject, and a free-text context. -/
def decisionResolutionBody (action : DAction) : DecisionResolutionBody :=
  { action := action.str,
    controller_id := "controller-001",
    feedback_score := if action = DAction.accept then 9/10 else 1/10,
    context := action.str ++ "ed decision" }

/-- The URL handleDecision posts to. -/
def decisionResolutionUrl (decisionId : String) (action : DAction) : String :=
  "http://localhost:8000/decisions/" ++ decisionId ++ "/" ++ action.str

/-- The fetch response as the client observes it: a success flag and an
uninterpreted payload. -/
structure HttpResponse where
  ok : Bool
  body : String

/-- The `setDecisions(prev => prev.map(...))` update run on a success response:
the decision whose id matches gets the action's terminal status, every other
decision is returned unchanged. -/
def handleDecisionUpdate (decisions : List AIDecision) (decisionId : String)
    (action : DAction) : List AIDecision :=
  decisions.map (fun d =>
    if d.id = decisionId then { d with status := terminalOf action } else d)

/-- handleDecision's effect on the decisions state: the update runs only when
`response.ok` holds, otherwise the state is left as it was. -/
def handleDecision (decisions : List AIDecision) (decisionId : String)
    (action : DAction) (response : HttpResponse) : List AIDecision :=
  if response.ok then handleDecisionUpdate decisions decisionId action else decisions

/-- Whether the Accept/Reject buttons are rendered for a decision:
`decision.status === 'pending' && ...`. -/
def showsDecisionControls (d : AIDecision) : Bool :=
  d.status = DStatus.pending

/-! ## MLPredictions (src/src/components/MLPredictions.tsx) -/

/-- The newPrediction form state: a train id plus the ten §4.4 features. -/
structure NewPredictionState where
  train_id : String
  weather : Rat
  traffic_density : Rat
  hour : Int
  day_of_week : Int
  track_condition : Rat
  signal_delay : Rat
  platform_availability : Rat
  route_complexity : Int
  train_type : String
  current_delay : Rat
  deriving Repr, DecidableEq

/-- The initial newPrediction useState value. -/
def initialNewPrediction : NewPredictionState :=
  { train_id := "EXP-101",
    weather := 0,
    traffic_density := 0,
    hour := 12,
    day_of_week := 0,
    track_condition := 1,
    signal_delay := 0,
    platform_availability := 1,
    route_complexity := 1,
    train_type := "Express",
    current_delay := 0 }

/-- A JSON scalar, enough to describe the stringified request bodies. -/
inductive JsonVal where
  | str (s : String)
  | num (q : Rat)
  | int (n : Int)
  deriving Repr, DecidableEq

/-- `JSON.stringify(newPrediction)`: the key/value pairs of the body posted by
handleNewPrediction to `/predict`, in the order the state object declares them. -/
def predictRequestBody (s : NewPredictionState) : List (String × JsonVal) :=
  [ ("train_id", JsonVal.str s.train_id),
    ("weather", JsonVal.num s.weather),
    ("traffic_density", JsonVal.num s.traffic_density),
    ("hour", JsonVal.int s.hour),
    ("day_of_week", JsonVal.int s.day_of_week),
    ("track_condition", JsonVal.num s.track_condition),
    ("signal_delay", JsonVal.num s.signal_delay),
    ("platform_availability", JsonVal.num s.platform_availability),
    ("route_complexity", JsonVal.int s.route_complexity),
    ("train_type", JsonVal.str s.train_type),
    ("current_delay", JsonVal.num s.current_delay) ]

/-- The ten §4.4 feature names, in the spec's order: weather severity, traffic
density, hour-of-day, day-of-week, track condition, signal delay, platform
availability, route complexity, train type, current observed delay. -/
def specFeatureNames : List String :=
  [ "weather", "traffic_density", "hour", "day_of_week", "track_condition",
    "signal_delay", "platform_availability", "route_complexity", "train_type",
    "current_delay" ]

/-- The declared numeric domains of the newPrediction features, as predicates
on the form state (weather, traffic density, track condition and platform
availability in [0,1]; hour in [0,23]; day-of-week in [0,6]; signal delay and
current delay non-negative; route complexity a positive element count). -/
def newPredictionInDomains (s : NewPredictionState) : Prop :=
  0 ≤ s.weather ∧ s.weather ≤ 1 ∧
  0 ≤ s.traffic_density ∧ s.traffic_density ≤ 1 ∧
  0 ≤ s.hour ∧ s.hour ≤ 23 ∧
  0 ≤ s.day_of_week ∧ s.day_of_week ≤ 6 ∧
  0 ≤ s.track_condition ∧ s.track_condition ≤ 1 ∧
  0 ≤ s.signal_delay ∧
  0 ≤ s.platform_availability ∧ s.platform_availability ≤ 1 ∧
  1 ≤ s.route_complexity ∧
  0 ≤ s.current_delay

instance (s : NewPredictionState) : Decidable (newPredictionInDomains s) := by
  unfold newPredictionInDomains; infer_instance

/-! ## Dashboard (src/src/components/Dashboard.tsx) -/

/-- TrainStatus.status: 'on-time' | 'delayed' | 'early'. -/
inductive TStatus where
  | onTime | delayed | early
  deriving Repr, DecidableEq

/-- interface TrainStatus of the dashboard. -/
structure TrainStatus where
  id : String
  name : String
  status : TStatus
  delay : Rat
  route : String
  deriving Repr, DecidableEq

/-- A fetched ML prediction as the frontend consumes it. -/
structure MLPrediction where
  trainId : String
  predictedDelay : Rat
  confidence : Rat
  factors : List String
  recommendation : String
  deriving Repr, DecidableEq

/-- fetchTrainStatuses' per-prediction mapping: status is 'delayed' when
`pred.predictedDelay > 10` and 'on-time' otherwise, route fixed. -/
def trainStatusOfPrediction (pred : MLPrediction) : TrainStatus :=
  { id := pred.trainId,
    name := pred.trainId,
    status := if pred.predictedDelay > 10 then TStatus.delayed else TStatus.onTime,
    delay := pred.predictedDelay,
    route := "Route A" }

/-- fetchTrainStatuses maps the fetched predictions to train statuses. -/
def fetchTrainStatuses (preds : List MLPrediction) : List TrainStatus :=
  preds.map trainStatusOfPrediction

/-- JS `Math.round`: nearest integer, halves toward positive infinity. -/
def jsRound (q : Rat) : Int := ⌊q + 1/2⌋

/-- The dashboard's on-time-rate text:
`totalTrains > 0 ? Math.round(onTime / total * 100) : 0`. -/
def onTimeRatePercent (onTimeTrains totalTrains : Nat) : Int :=
  if totalTrains > 0 then jsRound ((onTimeTrains : Rat) / (totalTrains : Rat) * 100) else 0

/-! ## Analytics (src/src/components/Analytics.tsx) -/

/-- The per-decision-type percentage badge:
`total_decisions > 0 ? Math.round(count / total_decisions * 100) : 0`. -/
def decisionTypePercent (count totalDecisions : Nat) : Int :=
  if totalDecisions > 0 then jsRound ((count : Rat) / (totalDecisions : Rat) * 100) else 0

/-- The state obtained from the initial configuration by one capacity edit whose
typed text parses to 0 (the handler stores `parseInt` output without clamping). -/
def badCapState : OptState := applyOptEvent (OptEvent.updateTrackCapacity 0 0) initialOptState

/-! ## Helper lemmas -/

theorem mem_listUpdate {α} {f : α → α} {n : Nat} {xs : List α} {x : α}
    (hx : x ∈ listUpdate f n xs) : x ∈ xs ∨ ∃ y ∈ xs, x = f y := by
  induction xs generalizing n with
  | nil => simp [listUpdate] at hx
  | cons a as ih =>
    cases n with
    | zero =>
      simp only [listUpdate, List.mem_cons] at hx
      rcases hx with h | h
      · exact Or.inr ⟨a, by simp, h⟩
      · exact Or.inl (by simp [h])
    | succ n =>
      simp only [listUpdate, List.mem_cons] at hx
      rcases hx with h | h
      · exact Or.inl (by simp [h])
      · rcases ih h with h1 | ⟨y, hy, hxy⟩
        · exact Or.inl (by simp [h1])
        · exact Or.inr ⟨y, by simp [hy], hxy⟩

/-- Any reachability notion whose priority edits stay within the select's
option values keeps every configured train's priority in those values. -/
theorem trains_priority_invariant {P : OptEvent → Prop}
    (hP : ∀ i v, P (OptEvent.updateTrainPriority i v) → v ∈ priorityOptions)
    {s : OptState} (h : ReachableFrom P s) :
    ∀ t ∈ s.trains, t.priority ∈ priorityOptions := by
  induction h with
  | init => decide
  | @step s e _ h2 ih =>
    cases e with
    | addTrainEv =>
      intro t ht
      simp only [applyOptEvent, addTrain, List.mem_append, List.mem_singleton] at ht
      rcases ht with h | h
      · exact ih t h
      · simp [h, priorityOptions]
    | addTrackEv =>
      intro t ht
      exact ih t (by simpa [applyOptEvent] using ht)
    | updateTrainRoute i raw =>
      intro t ht
      simp only [applyOptEvent] at ht
      rcases mem_listUpdate ht with h | ⟨y, hy, hty⟩
      · exact ih t h
      · simpa [hty] using ih y hy
    | updateTrainDelay i v =>
      intro t ht
      simp only [applyOptEvent] at ht
      rcases mem_listUpdate ht with h | ⟨y, hy, hty⟩
      · exact ih t h
      · simpa [hty] using ih y hy
    | updateTrainPriority i v =>
      intro t ht
      simp only [applyOptEvent] at ht
      rcases mem_listUpdate ht with h | ⟨y, hy, hty⟩
      · exact ih t h
      · simpa [hty] using hP i v h2
    | updateTrackCapacity i v =>
      intro t ht
      exact ih t (by simpa [applyOptEvent] using ht)
    | updateTrackType i v =>
      intro t ht
      exact ih t (by simpa [applyOptEvent] using ht)

/-- Any reachability notion whose type edits stay within the select's option
values keeps every configured track's type in those values. -/
theorem tracks_type_invariant {P : OptEvent → Prop}
    (hP : ∀ i v, P (OptEvent.updateTrackType i v) → v ∈ trackTypeOptions)
    {s : OptState} (h : ReachableFrom P s) :
    ∀ tr ∈ s.tracks, tr.type ∈ trackTypeOptions := by
  induction h with
  | init => decide
  | @step s e _ h2 ih =>
    cases e with
    | addTrainEv =>
      intro tr htr
      exact ih tr (by simpa [applyOptEvent] using htr)
    | addTrackEv =>
      intro tr htr
      simp only [applyOptEvent, addTrack, List.mem_append, List.mem_singleton] at htr
      rcases htr with h | h
      · exact ih tr h
      · simp [h, trackTypeOptions]
    | updateTrainRoute i raw =>
      intro tr htr
      exact ih tr (by simpa [applyOptEvent] using htr)
    | updateTrainDelay i v =>
      intro tr htr
      exact ih tr (by simpa [applyOptEvent] using htr)
    | updateTrainPriority i v =>
      intro tr htr
      exact ih tr (by simpa [applyOptEvent] using htr)
    | updateTrackCapacity i v =>
      intro tr htr
      simp only [applyOptEvent] at htr
      rcases mem_listUpdate htr with h | ⟨y, hy, hty⟩
      · exact ih tr h
      · simpa [hty] using ih y hy
    | updateTrackType i v =>
      intro tr htr
      simp only [applyOptEvent] at htr
      rcases mem_listUpdate htr with h | ⟨y, hy, hty⟩
      · exact ih tr h
      · simpa [hty] using hP i v h2

/-- Any reachability notion whose capacity edits carry a value at least 1
keeps every configured track's capacity at least 1. -/
theorem tracks_capacity_invariant {P : OptEvent → Prop}
    (hP : ∀ i v, P (OptEvent.updateTrackCapacity i v) → 1 ≤ v)
    {s : OptState} (h : ReachableFrom P s) :
    ∀ tr ∈ s.tracks, 1 ≤ tr.capacity := by
  induction h with
  | init => decide
  | @step s e _ h2 ih =>
    cases e with
    | addTrainEv =>
      intro tr htr
      exact ih tr (by simpa [applyOptEvent] using htr)
    | addTrackEv =>
      intro tr htr
      simp only [applyOptEvent, addTrack, List.mem_append, List.mem_singleton] at htr
      rcases htr with h | h
      · exact ih tr h
      · simp [h]
    | updateTrainRoute i raw =>
      intro tr htr
      exact ih tr (by simpa [applyOptEvent] using htr)
    | updateTrainDelay i v =>
      intro tr htr
      exact ih tr (by simpa [applyOptEvent] using htr)
    | updateTrainPriority i v =>
      intro tr htr
      exact ih tr (by simpa [applyOptEvent] using htr)
    | updateTrackCapacity i v =>
      intro tr htr
      simp only [applyOptEvent] at htr
      rcases mem_listUpdate htr with h | ⟨y, hy, hty⟩
      · exact ih tr h
      · simpa [hty] using hP i v h2
    | updateTrackType i v =>
      intro tr htr
      simp only [applyOptEvent] at htr
      rcases mem_listUpdate htr with h | ⟨y, hy, hty⟩
      · exact ih tr h
      · simpa [hty] using ih y hy

/-! ## Claim theorems -/

/-- C1: every schedule-optimization request built by handleOptimize carries the
configured trains (each with id, ordered route, priority and current_delay
fields, the priority always one of the select's values 0, 1, 2), the configured
tracks (each with id, capacity and type fields), and an existing-schedule
mapping keyed by exactly the train ids, each entry `{scheduled_time := 0}`. -/
theorem handleOptimize_request_payload {s : OptState} (h : ReachableOptState s) :
    (optimizeRequestBody s).trains = s.trains ∧
    (∀ t ∈ (optimizeRequestBody s).trains,
      t.priority ∈ priorityOptions ∧ 0 ≤ t.priority ∧ t.priority ≤ 2) ∧
    (optimizeRequestBody s).tracks = s.tracks ∧
    ((optimizeRequestBody s).current_schedule).map Prod.fst = s.trains.map Train.id ∧
    (∀ p ∈ (optimizeRequestBody s).current_schedule,
      p.2 = { scheduled_time := 0 }) := by
  refine ⟨rfl, ?_, rfl, ?_, ?_⟩
  · intro t ht
    have hp := trains_priority_invariant (P := ValidOptEvent) (fun _ _ hv => hv) h t ht
    refine ⟨hp, ?_, ?_⟩ <;>
      · simp only [priorityOptions, List.mem_cons, List.mem_singleton] at hp
        rcases hp with h0 | h1 | h2 | hf
        · simp [h0]
        · simp [h1]
        · simp [h2]
        · simp at hf
  · simp [optimizeRequestBody, currentSchedule, List.map_map, Function.comp]
  · intro p hp
    simp only [optimizeRequestBody, currentSchedule, List.mem_map] at hp
    rcases hp with ⟨t, _, rfl⟩
    rfl

/-- Witness for C1 at the component's initial state. -/
theorem handleOptimize_request_payload_witness :
    ReachableOptState initialOptState ∧
    ((optimizeRequestBody initialOptState).trains = initialOptState.trains ∧
    (∀ t ∈ (optimizeRequestBody initialOptState).trains,
      t.priority ∈ priorityOptions ∧ 0 ≤ t.priority ∧ t.priority ≤ 2) ∧
    (optimizeRequestBody initialOptState).tracks = initialOptState.tracks ∧
    ((optimizeRequestBody initialOptState).current_schedule).map Prod.fst =
      initialOptState.trains.map Train.id ∧
    (∀ p ∈ (optimizeRequestBody initialOptState).current_schedule,
      p.2 = { scheduled_time := 0 })) :=
  ⟨ReachableFrom.init, handleOptimize_request_payload ReachableFrom.init⟩

/-- C6: the Schedule Optimizer's initial configuration realizes the §8 example
scenario: trains EXP-101/LOC-78/FRT-203 with priorities 2/1/0, tracks A, B, C
present with capacities 1, 2, 1, and each of A, B, C lying on the routes of at
least two of the contending trains. -/
theorem example_scenario_defaults :
    initialTrains.length = 3 ∧
    priorityOf "EXP-101" initialTrains = some 2 ∧
    priorityOf "LOC-78" initialTrains = some 1 ∧
    priorityOf "FRT-203" initialTrains = some 0 ∧
    capacityOf "A" initialTracks = some 1 ∧
    capacityOf "B" initialTracks = some 2 ∧
    capacityOf "C" initialTracks = some 1 ∧
    2 ≤ trainsUsing "A" initialTrains ∧
    2 ≤ trainsUsing "B" initialTrains ∧
    2 ≤ trainsUsing "C" initialTrains := by
  decide

/-- C7 counterexample: the capacity invariant is not maintained by every
updateTrack capacity edit — typing a value that parses to 0 is stored as-is,
so a reachable state holds track A with capacity 0 < 1. -/
theorem track_capacity_invariant_cex :
    ReachableOptState badCapState ∧
    capacityOf "A" badCapState.tracks = some 0 ∧
    ¬ (∀ tr ∈ badCapState.tracks, 1 ≤ tr.capacity) := by
  refine ⟨ReachableFrom.step ReachableFrom.init trivial, by decide, by decide⟩

/-- C7 amended: every reachable track's type is one of track, junction or
platform, and the capacity invariant (capacity ≥ 1) holds for the initial
tracks, for addTrack, and along every edit history whose capacity edits carry a
parsed value of at least 1 — but updateTrack itself does not enforce the bound. -/
theorem track_invariant_amended
    {s s1 : OptState} (h : ReachableOptState s)
    (h1 : ReachableFrom (fun e => ValidOptEvent e ∧ CapAtLeastOne e) s1) :
    (∀ tr ∈ s.tracks, tr.type ∈ trackTypeOptions) ∧
    (∀ tr ∈ initialTracks, 1 ≤ tr.capacity) ∧
    (∀ tr ∈ addTrack s.tracks, tr.type ∈ trackTypeOptions) ∧
    (∀ tr ∈ s1.tracks, 1 ≤ tr.capacity ∧ tr.type ∈ trackTypeOptions) := by
  refine ⟨tracks_type_invariant (fun _ _ hv => hv) h, by decide, ?_, ?_⟩
  · intro tr htr
    simp only [addTrack, List.mem_append, List.mem_singleton] at htr
    rcases htr with hm | hm
    · exact tracks_type_invariant (fun _ _ hv => hv) h tr hm
    · simp [hm, trackTypeOptions]
  · intro tr htr
    exact ⟨tracks_capacity_invariant (fun _ _ hv => hv.2) h1 tr htr,
      tracks_type_invariant (fun _ _ hv => hv.1) h1 tr htr⟩

/-- Witness for the amended C7 at the initial state. -/
theorem track_invariant_amended_witness :
    ReachableOptState initialOptState ∧
    ((∀ tr ∈ initialOptState.tracks, tr.type ∈ trackTypeOptions) ∧
    (∀ tr ∈ initialTracks, 1 ≤ tr.capacity) ∧
    (∀ tr ∈ addTrack initialOptState.tracks, tr.type ∈ trackTypeOptions) ∧
    (∀ tr ∈ initialOptState.tracks, 1 ≤ tr.capacity ∧ tr.type ∈ trackTypeOptions)) :=
  ⟨ReachableFrom.init, track_invariant_amended ReachableFrom.init ReachableFrom.init⟩

/-- C8: the priority select offers exactly the values 0, 1, 2 (low/freight,
medium/local, high/express), and every train in any reachable configuration —
initial trains, trains created by addTrain, trains edited through the select —
has its priority among those values. -/
theorem train_priority_domain {s : OptState} (h : ReachableOptState s) :
    priorityOptions = [0, 1, 2] ∧
    ∀ t ∈ s.trains, t.priority ∈ priorityOptions :=
  ⟨rfl, trains_priority_invariant (fun _ _ hv => hv) h⟩

/-- Witness for C8: the priority domain at a state reached by addTrain and a
priority edit through the select. -/
theorem train_priority_domain_witness :
    ReachableOptState
      (applyOptEvent (OptEvent.updateTrainPriority 0 2)
        (applyOptEvent OptEvent.addTrainEv initialOptState)) ∧
    (priorityOptions = [0, 1, 2] ∧
    ∀ t ∈ (applyOptEvent (OptEvent.updateTrainPriority 0 2)
        (applyOptEvent OptEvent.addTrainEv initialOptState)).trains,
      t.priority ∈ priorityOptions) :=
  ⟨ReachableFrom.step (ReachableFrom.step ReachableFrom.init trivial) (by decide),
   train_priority_domain
     (ReachableFrom.step (ReachableFrom.step ReachableFrom.init trivial) (by decide))⟩

/-- C2: every prediction request built by handleNewPrediction carries exactly
the train id followed by the ten §4.4 features, and the default newPrediction
values all lie within the declared numeric domains. -/
theorem prediction_request_features (s : NewPredictionState) :
    (predictRequestBody s).map Prod.fst = "train_id" :: specFeatureNames ∧
    (predictRequestBody s).length = 11 ∧
    newPredictionInDomains initialNewPrediction :=
  ⟨rfl, rfl, by decide⟩

/-- Witness for C2 at the default form state. -/
theorem prediction_request_features_witness :
    (predictRequestBody initialNewPrediction).map Prod.fst = "train_id" :: specFeatureNames ∧
    (predictRequestBody initialNewPrediction).length = 11 ∧
    newPredictionInDomains initialNewPrediction :=
  prediction_request_features initialNewPrediction

/-- C3: the Accept/Reject controls appear only for pending decisions, so the
target of an operator action is pending; the resulting state update sets that
decision's status to the action's terminal value (after which the controls are
gone), returns every decision with a different id unchanged, and returns every
already-resolved decision unchanged — each status changes pending → terminal
exactly once and never reverts. -/
theorem decision_lifecycle {ds : List AIDecision} {decisionId : String} {a : DAction}
    (hshown : ∀ d ∈ ds, d.id = decisionId → showsDecisionControls d = true) :
    (handleDecisionUpdate ds decisionId a).length = ds.length ∧
    ∀ i : Nat, ∀ d, ds[i]? = some d →
      (d.id = decisionId →
        d.status = DStatus.pending ∧
        (handleDecisionUpdate ds decisionId a)[i]? =
          some { d with status := terminalOf a } ∧
        ∀ d2, (handleDecisionUpdate ds decisionId a)[i]? = some d2 →
          showsDecisionControls d2 = false) ∧
      (d.id ≠ decisionId → (handleDecisionUpdate ds decisionId a)[i]? = some d) ∧
      (d.status ≠ DStatus.pending → (handleDecisionUpdate ds decisionId a)[i]? = some d) := by
  constructor
  · simp [handleDecisionUpdate]
  · intro i d hd
    have hmem : d ∈ ds := List.getElem?_mem hd
    have hmap : (handleDecisionUpdate ds decisionId a)[i]? =
        (ds[i]?).map (fun d =>
          if d.id = decisionId then { d with status := terminalOf a } else d) := by
      simp [handleDecisionUpdate]
    refine ⟨?_, ?_, ?_⟩
    · intro hid
      have hpend : d.status = DStatus.pending := by
        simpa [showsDecisionControls] using hshown d hmem hid
      refine ⟨hpend, ?_, ?_⟩
      · rw [hmap, hd]; simp [hid]
      · intro d2 hd2
        rw [hmap, hd] at hd2
        simp only [Option.map_some', hid, if_pos, Option.some_inj] at hd2
        cases a <;> simp [← hd2, showsDecisionControls, terminalOf]
    · intro hid
      rw [hmap, hd]; simp [hid]
    · intro hstat
      have hid : d.id ≠ decisionId := fun hid =>
        hstat (by simpa [showsDecisionControls] using hshown d hmem hid)
      rw [hmap, hd]; simp [hid]

/-- Witness for C3 on a two-decision state, resolving the pending one. -/
theorem decision_lifecycle_witness :
    (∀ d ∈ ([ { id := "DEC-1", type := "routing", description := "Reroute",
                impact := "low", confidence := 87/100, status := DStatus.pending,
                estimatedTimeSaving := 5 },
              { id := "DEC-2", type := "priority", description := "Hold",
                impact := "low", confidence := 1/2, status := DStatus.accepted,
                estimatedTimeSaving := 3 } ] : List AIDecision),
        d.id = "DEC-1" → showsDecisionControls d = true) ∧
    ((handleDecisionUpdate
        [ { id := "DEC-1", type := "routing", description := "Reroute",
            impact := "low", confidence := 87/100, status := DStatus.pending,
            estimatedTimeSaving := 5 },
          { id := "DEC-2", type := "priority", description := "Hold",
            impact := "low", confidence := 1/2, status := DStatus.accepted,
            estimatedTimeSaving := 3 } ] "DEC-1" DAction.accept).length =
      ([ { id := "DEC-1", type := "routing", description := "Reroute",
           impact := "low", confidence := 87/100, status := DStatus.pending,
           estimatedTimeSaving := 5 },
         { id := "DEC-2", type := "priority", description := "Hold",
           impact := "low", confidence := 1/2, status := DStatus.accepted,
           estimatedTimeSaving := 3 } ] : List AIDecision).length ∧
    ∀ i : Nat, ∀ d,
      ([ { id := "DEC-1", type := "routing", description := "Reroute",
           impact := "low", confidence := 87/100, status := DStatus.pending,
           estimatedTimeSaving := 5 },
         { id := "DEC-2", type := "priority", description := "Hold",
           impact := "low", confidence := 1/2, status := DStatus.accepted,
           estimatedTimeSaving := 3 } ] : List AIDecision)[i]? = some d →
      (d.id = "DEC-1" →
        d.status = DStatus.pending ∧
        (handleDecisionUpdate
          [ { id := "DEC-1", type := "routing", description := "Reroute",
              impact := "low", confidence := 87/100, status := DStatus.pending,
              estimatedTimeSaving := 5 },
            { id := "DEC-2", type := "priority", description := "Hold",
              impact := "low", confidence := 1/2, status := DStatus.accepted,
              estimatedTimeSaving := 3 } ] "DEC-1" DAction.accept)[i]? =
          some { d with status := terminalOf DAction.accept } ∧
        ∀ d2, (handleDecisionUpdate
          [ { id := "DEC-1", type := "routing", description := "Reroute",
              impact := "low", confidence := 87/100, status := DStatus.pending,
              estimatedTimeSaving := 5 },
            { id := "DEC-2", type := "priority", description := "Hold",
              impact := "low", confidence := 1/2, status := DStatus.accepted,
              estimatedTimeSaving := 3 } ] "DEC-1" DAction.accept)[i]? = some d2 →
          showsDecisionControls d2 = false) ∧
      (d.id ≠ "DEC-1" →
        (handleDecisionUpdate
          [ { id := "DEC-1", type := "routing", description := "Reroute",
              impact := "low", confidence := 87/100, status := DStatus.pending,
              estimatedTimeSaving := 5 },
            { id := "DEC-2", type := "priority", description := "Hold",
              impact := "low", confidence := 1/2, status := DStatus.accepted,
              estimatedTimeSaving := 3 } ] "DEC-1" DAction.accept)[i]? = some d) ∧
      (d.status ≠ DStatus.pending →
        (handleDecisionUpdate
          [ { id := "DEC-1", type := "routing", description := "Reroute",
              impact := "low", confidence := 87/100, status := DStatus.pending,
              estimatedTimeSaving := 5 },
            { id := "DEC-2", type := "priority", description := "Hold",
              impact := "low", confidence := 1/2, status := DStatus.accepted,
              estimatedTimeSaving := 3 } ] "DEC-1" DAction.accept)[i]? = some d)) :=
  ⟨by decide, decision_lifecycle (by decide)⟩

/-- C4: when the resolution request does not come back successful, handleDecision
leaves the decisions state exactly as it was. -/
theorem handleDecision_failure_leaves_state {ds : List AIDecision} {decisionId : String}
    {a : DAction} {r : HttpResponse} (h : r.ok = false) :
    handleDecision ds decisionId a r = ds := by
  simp [handleDecision, h]

/-- Witness for C4 on a concrete failed response. -/
theorem handleDecision_failure_leaves_state_witness :
    ({ ok := false, body := "error" } : HttpResponse).ok = false ∧
    handleDecision
      [ { id := "DEC-1", type := "routing", description := "Reroute",
          impact := "low", confidence := 87/100, status := DStatus.pending,
          estimatedTimeSaving := 5 } ] "DEC-1" DAction.accept
      { ok := false, body := "error" } =
      [ { id := "DEC-1", type := "routing", description := "Reroute",
          impact := "low", confidence := 87/100, status := DStatus.pending,
          estimatedTimeSaving := 5 } ] :=
  ⟨rfl, handleDecision_failure_leaves_state rfl⟩

/-- C5: every resolution request posts to a URL carrying the decision id and
the action, with a body holding an action that is accept or reject, the fixed
controller identity, a feedback_score in [0,1] that is 0.9 on accept and 0.1
on reject, and a free-text context; the client's state update depends on the
response only through its success flag. -/
theorem decision_resolution_request (decisionId : String) (a : DAction) :
    decisionResolutionUrl decisionId a =
      "http://localhost:8000/decisions/" ++ (decisionId ++ ("/" ++ a.str)) ∧
    ((decisionResolutionBody a).action = "accept" ∨
      (decisionResolutionBody a).action = "reject") ∧
    (decisionResolutionBody a).action = a.str ∧
    (decisionResolutionBody a).controller_id = "controller-001" ∧
    0 ≤ (decisionResolutionBody a).feedback_score ∧
    (decisionResolutionBody a).feedback_score ≤ 1 ∧
    (decisionResolutionBody a).feedback_score =
      (if a = DAction.accept then (9 : Rat)/10 else 1/10) ∧
    (decisionResolutionBody a).context = a.str ++ "ed decision" ∧
    ∀ (ds : List AIDecision) (r r2 : HttpResponse), r.ok = r2.ok →
      handleDecision ds decisionId a r = handleDecision ds decisionId a r2 := by
  refine ⟨?_, ?_, rfl, rfl, ?_, ?_, rfl, rfl, ?_⟩
  · simp [decisionResolutionUrl, String.append_assoc]
  · cases a
    · exact Or.inl rfl
    · exact Or.inr rfl
  · cases a <;> simp [decisionResolutionBody] <;> norm_num
  · cases a <;> simp [decisionResolutionBody] <;> norm_num
  · intro ds r r2 hok
    simp [handleDecision, hok]

/-- Witness for C5 at a concrete decision id and the accept action. -/
theorem decision_resolution_request_witness :
    decisionResolutionUrl "DEC-1" DAction.accept =
      "http://localhost:8000/decisions/" ++ ("DEC-1" ++ ("/" ++ DAction.accept.str)) ∧
    ((decisionResolutionBody DAction.accept).action = "accept" ∨
      (decisionResolutionBody DAction.accept).action = "reject") ∧
    (decisionResolutionBody DAction.accept).action = DAction.accept.str ∧
    (decisionResolutionBody DAction.accept).controller_id = "controller-001" ∧
    0 ≤ (decisionResolutionBody DAction.accept).feedback_score ∧
    (decisionResolutionBody DAction.accept).feedback_score ≤ 1 ∧
    (decisionResolutionBody DAction.accept).feedback_score =
      (if DAction.accept = DAction.accept then (9 : Rat)/10 else 1/10) ∧
    (decisionResolutionBody DAction.accept).context = DAction.accept.str ++ "ed decision" ∧
    ∀ (ds : List AIDecision) (r r2 : HttpResponse), r.ok = r2.ok →
      handleDecision ds "DEC-1" DAction.accept r = handleDecision ds "DEC-1" DAction.accept r2 :=
  decision_resolution_request "DEC-1" DAction.accept

/-- C9: the dashboard on-time-rate and the analytics per-type percentage are
total: at a zero denominator they are defined and equal 0, and the division is
evaluated only under the positive-denominator guard. -/
theorem percent_zero_denominator_guard (onTimeTrains count total : Nat) :
    onTimeRatePercent onTimeTrains 0 = 0 ∧
    decisionTypePercent count 0 = 0 ∧
    (0 < total →
      onTimeRatePercent onTimeTrains total =
        jsRound ((onTimeTrains : Rat) / (total : Rat) * 100)) ∧
    (0 < total →
      decisionTypePercent count total =
        jsRound ((count : Rat) / (total : Rat) * 100)) := by
  refine ⟨by simp [onTimeRatePercent], by simp [decisionTypePercent], ?_, ?_⟩ <;>
    intro h <;> simp [onTimeRatePercent, decisionTypePercent, h]

/-- Witness for C9 at concrete counts. -/
theorem percent_zero_denominator_guard_witness :
    onTimeRatePercent 3 0 = 0 ∧
    decisionTypePercent 2 0 = 0 ∧
    (0 < 4 → onTimeRatePercent 3 4 = jsRound ((3 : Rat) / (4 : Rat) * 100)) ∧
    (0 < 4 → decisionTypePercent 2 4 = jsRound ((2 : Rat) / (4 : Rat) * 100)) :=
  percent_zero_denominator_guard 3 2 4

/-- C10: every train status the dashboard derives from a fetched prediction is
'delayed' exactly when the predicted delay exceeds 10 minutes, 'on-time'
otherwise, and never 'early'. -/
theorem dashboard_train_status (preds : List MLPrediction) :
    ∀ t ∈ fetchTrainStatuses preds,
      (t.status = TStatus.delayed ↔ 10 < t.delay) ∧
      (t.status = TStatus.onTime ↔ ¬ 10 < t.delay) ∧
      t.status ≠ TStatus.early := by
  intro t ht
  simp only [fetchTrainStatuses, List.mem_map] at ht
  rcases ht with ⟨pred, _, rfl⟩
  by_cases h : pred.predictedDelay > 10 <;>
    simp [trainStatusOfPrediction, h]

/-- Witness for C10 on a concrete fetched prediction above the threshold. -/
theorem dashboard_train_status_witness :
    ((trainStatusOfPrediction
        { trainId := "EXP-101", predictedDelay := 12, confidence := 9/10,
          factors := ["weather"], recommendation := "Hold" }).status = TStatus.delayed ↔
      10 < (trainStatusOfPrediction
        { trainId := "EXP-101", predictedDelay := 12, confidence := 9/10,
          factors := ["weather"], recommendation := "Hold" }).delay) ∧
    ((trainStatusOfPrediction
        { trainId := "EXP-101", predictedDelay := 12, confidence := 9/10,
          factors := ["weather"], recommendation := "Hold" }).status = TStatus.onTime ↔
      ¬ 10 < (trainStatusOfPrediction
        { trainId := "EXP-101", predictedDelay := 12, confidence := 9/10,
          factors := ["weather"], recommendation := "Hold" }).delay) ∧
    (trainStatusOfPrediction
        { trainId := "EXP-101", predictedDelay := 12, confidence := 9/10,
          factors := ["weather"], recommendation := "Hold" }).status ≠ TStatus.early :=
  dashboard_train_status
    [ { trainId := "EXP-101", predictedDelay := 12, confidence := 9/10,
        factors := ["weather"], recommendation := "Hold" } ]
    (trainStatusOfPrediction
      { trainId := "EXP-101", predictedDelay := 12, confidence := 9/10,
        factors := ["weather"], recommendation := "Hold" })
    (by simp [fetchTrainStatuses])

end Junction




